import Mathlib

/-!
Shallow embedding of the Document-Translation pipeline (src/app.py).

The four pipeline functions of the script are embedded as Lean functions:
google_translate, input_pdf_setup, process_gemini_response and
explain_and_summarize, together with the per-page extraction loop of the
orchestrator. External collaborators (the pdf2image library, the JPEG
encoder of PIL, the generative-model client and the translation backend)
are passed in as function parameters, exactly at the call sites where the
script invokes them. Fallible Python operations (list indexing, raising
library calls, the caught exception in explain_and_summarize) are embedded
in an Except channel whose error side carries the exception message.
-/

set_option autoImplicit false

namespace App

/-- One safety rating of the prompt feedback: a category string and a
probability-level string, as read by the script at rating.category and
rating.probability. -/
structure SafetyRating where
  category : String
  probability : String
deriving DecidableEq

/-- The prompt-level feedback object: its safety_ratings list, in the
order the backend lists them. -/
structure PromptFeedback where
  safety_ratings : List SafetyRating
deriving DecidableEq

/-- One content part. The text attribute is optional: text.isSome models
hasattr(part, "text") in the script, and for such parts text carries the
string the script reads at part.text. -/
structure Part where
  text : Option String
deriving DecidableEq

/-- The content of a candidate: its parts attribute, which the script
compares against None, hence an Option of a list. -/
structure Content where
  parts : Option (List Part)
deriving DecidableEq

/-- One candidate of a model response: its content attribute, which the
script compares against None. -/
structure Candidate where
  content : Option Content
deriving DecidableEq

/-- The raw model response: a list of candidates plus optional prompt
feedback, the two attributes the script reads. -/
structure GeminiResponse where
  candidates : List Candidate
  prompt_feedback : Option PromptFeedback
deriving DecidableEq

/-- Python list indexing xs[i]: the element when in range, an IndexError
on the Except channel otherwise. -/
def py_index {α : Type} (xs : List α) (i : Nat) : Except String α :=
  match xs.get? i with
  | some a => Except.ok a
  | none => Except.error "IndexError: list index out of range"

/-- The for loop over prompt_feedback.safety_ratings in
process_gemini_response: returns the first rating whose probability is not
NEGLIGIBLE, if any. -/
def find_blocking_rating : List SafetyRating → Option SafetyRating
  | [] => none
  | rating :: rest =>
    if rating.probability ≠ "NEGLIGIBLE" then some rating else find_blocking_rating rest

/-- Embedding of process_gemini_response (src/app.py lines 57-82). The
Except error side models a raised exception; every return statement of the
Python function lands on the ok side. -/
def process_gemini_response (response : GeminiResponse) : Except String String :=
  if response.candidates.isEmpty then
    match response.prompt_feedback with
    | some feedback =>
      match find_blocking_rating feedback.safety_ratings with
      | some rating =>
        Except.ok ("Content was blocked due to " ++ rating.category ++ " with "
          ++ rating.probability ++ " probability.")
      | none => Except.ok "The response was blocked or empty."
    | none => Except.ok "The response was blocked or empty."
  else
    match py_index response.candidates 0 with
    | Except.error e => Except.error e
    | Except.ok candidate =>
      match candidate.content with
      | none => Except.ok "The response did not contain any content."
      | some content =>
        match content.parts with
        | none => Except.ok "The response did not contain any content."
        | some parts =>
          let text_parts := List.filterMap (fun part => part.text) parts
          if text_parts.isEmpty then
            Except.ok "The response did not contain any text parts."
          else
            Except.ok (String.intercalate " " text_parts)

/-- The string process_gemini_response actually returns; by totality (see
process_gemini_response_no_raise below) the error branch is dead. -/
def process_str (response : GeminiResponse) : String :=
  match process_gemini_response response with
  | Except.ok s => s
  | Except.error e => e

/-- The translator object GoogleTranslator(source=..., target=...) built
by google_translate. -/
structure GoogleTranslator where
  source : String
  target : String
deriving DecidableEq

/-- Embedding of google_translate (src/app.py lines 14-28). The
deep_translator method translator.translate(text) is the parameter
translate_method, applied to the constructed translator object. -/
def google_translate (translate_method : GoogleTranslator → String → String)
    (text source_lang target_lang : String) : String :=
  let translator := GoogleTranslator.mk source_lang target_lang
  translate_method translator text

/-- One element of the list input_pdf_setup returns: the Python dict with
keys mime_type and data. -/
structure PdfPart where
  mime_type : String
  data : String
deriving DecidableEq

/-- The base64 alphabet of RFC 4648, as used by base64.b64encode. -/
def b64digits : String :=
  "ABCDEFGHIJKLMNOPQRSTUVWXYZabcdefghijklmnopqrstuvwxyz0123456789+/"

/-- The base64 digit for a 6-bit value. -/
def b64char (n : Nat) : Char :=
  b64digits.toList.getD n 'A'

/-- Standard base64 encoding of a byte sequence with = padding, the
Lean counterpart of base64.b64encode(bytes).decode(). -/
def b64encode : List Nat → String
  | [] => ""
  | [a] =>
    let a := a % 256
    String.mk [b64char (a / 4), b64char (a % 4 * 16), '=', '=']
  | [a, b] =>
    let a := a % 256
    let b := b % 256
    String.mk [b64char (a / 4), b64char (a % 4 * 16 + b / 16), b64char (b % 16 * 4), '=']
  | a :: b :: c :: rest =>
    let a := a % 256
    let b := b % 256
    let c := c % 256
    String.mk [b64char (a / 4), b64char (a % 4 * 16 + b / 16),
      b64char (b % 16 * 4 + c / 64), b64char (c % 64)] ++ b64encode rest

/-- The two exceptions input_pdf_setup can surface: the FileNotFoundError
it raises itself, or an error of the rasterization library. -/
inductive PdfSetupError where
  | fileNotFound (msg : String)
  | libraryError (msg : String)
deriving DecidableEq

/-- Embedding of input_pdf_setup (src/app.py lines 30-55). The pdf2image
call convert_from_bytes and the PIL JPEG re-encoding image.save(...,
format=JPEG) are the two library parameters; uploaded_file is the byte
content of the upload, or none when st.file_uploader produced no file.
The page loop is the foldl appending one dict per page. -/
def input_pdf_setup {Image : Type}
    (convert_from_bytes : List Nat → Except String (List Image))
    (jpeg_bytes : Image → List Nat)
    (uploaded_file : Option (List Nat)) : Except PdfSetupError (List PdfPart) :=
  match uploaded_file with
  | some bytes =>
    match convert_from_bytes bytes with
    | Except.ok images =>
      Except.ok (images.foldl
        (fun pdf_parts image =>
          pdf_parts ++ [PdfPart.mk "image/jpeg" (b64encode (jpeg_bytes image))]) [])
    | Except.error e => Except.error (PdfSetupError.libraryError e)
  | none => Except.error (PdfSetupError.fileNotFound "No file uploaded")

/-- The prompt f-string of explain_and_summarize (src/app.py lines
95-100), with the input text interpolated verbatim. -/
def mk_prompt (text : String) : String :=
  "\n    Please explain and summarize the following text in simple, easy-to-understand language. \n    Keep the summary concise but include all key points:\n\n    "
    ++ text ++ "\n    "

/-- Embedding of explain_and_summarize (src/app.py lines 84-105). The
model call generate_content is a parameter returning either a response or
a raised exception message; the try block covers both the model call and
process_gemini_response, and the except branch builds the error string
from the exception message. -/
def explain_and_summarize (generate_content : String → Except String GeminiResponse)
    (text : String) : String :=
  match generate_content (mk_prompt text) with
  | Except.ok response =>
    match process_gemini_response response with
    | Except.ok s => s
    | Except.error e => "An error occurred while generating the explanation: " ++ e
  | Except.error e => "An error occurred while generating the explanation: " ++ e

/-- One iteration of the extraction loop of the orchestrator (src/app.py
lines 122-124): the page part is sent to the vision model with the fixed
instruction and the processed result plus a blank line is appended to the
accumulated text. An exception from process_gemini_response would
propagate, hence the Except channel. -/
def extract_page_step (generate_content : PdfPart → String → GeminiResponse)
    (extracted_text : String) (part : PdfPart) : Except String String := do
  let response := generate_content part "Extract all the text from this image"
  let s ← process_gemini_response response
  pure (extracted_text ++ s ++ "\n\n")

/-- Embedding of the extraction loop of the orchestrator (src/app.py lines
121-124): starting from the empty string, extract_page_step runs once per
page part, in order. -/
def extracted_text_loop (generate_content : PdfPart → String → GeminiResponse)
    (pdf_parts : List PdfPart) : Except String String :=
  List.foldlM (extract_page_step generate_content) "" pdf_parts

/-! ### Helper lemmas shared by the claim theorems -/

/-- Unfolding of process_gemini_response on a response with zero candidates. -/
theorem process_gemini_response_nil_eq (fb : Option PromptFeedback) :
    process_gemini_response ⟨[], fb⟩ =
      match fb with
      | some feedback =>
        match find_blocking_rating feedback.safety_ratings with
        | some rating =>
          Except.ok ("Content was blocked due to " ++ rating.category ++ " with "
            ++ rating.probability ++ " probability.")
        | none => Except.ok "The response was blocked or empty."
      | none => Except.ok "The response was blocked or empty." := rfl

/-- Unfolding of process_gemini_response on a response with at least one
candidate: only the first candidate is consulted. -/
theorem process_gemini_response_cons_eq (c : Candidate) (cs : List Candidate)
    (fb : Option PromptFeedback) :
    process_gemini_response ⟨c :: cs, fb⟩ =
      match c.content with
      | none => Except.ok "The response did not contain any content."
      | some content =>
        match content.parts with
        | none => Except.ok "The response did not contain any content."
        | some parts =>
          if (List.filterMap (fun part => part.text) parts).isEmpty then
            Except.ok "The response did not contain any text parts."
          else
            Except.ok (String.intercalate " " (List.filterMap (fun part => part.text) parts)) :=
  rfl

/-- Totality of the embedded process_gemini_response: every branch returns
on the ok side of the Except channel. -/
theorem process_gemini_response_ok (r : GeminiResponse) :
    ∃ s, process_gemini_response r = Except.ok s := by
  obtain ⟨cands, fb⟩ := r
  cases cands with
  | nil =>
    rw [process_gemini_response_nil_eq]
    repeat' split
    all_goals exact ⟨_, rfl⟩
  | cons c cs =>
    rw [process_gemini_response_cons_eq]
    repeat' split
    all_goals exact ⟨_, rfl⟩

/-- The embedded for loop over safety ratings agrees with List.find? on
the non-NEGLIGIBLE predicate. -/
theorem find_blocking_rating_eq_find (l : List SafetyRating) :
    find_blocking_rating l = l.find? (fun rt => rt.probability != "NEGLIGIBLE") := by
  induction l with
  | nil => rfl
  | cons r rs ih =>
    by_cases h : r.probability = "NEGLIGIBLE"
    · simp [find_blocking_rating, List.find?_cons, h, ih]
    · simp [find_blocking_rating, List.find?_cons, h]

/-- The text-part comprehension as a filter followed by a map: the texts
of exactly the parts carrying a text field, in part order. -/
theorem filterMap_text_eq_filter_map (parts : List Part) :
    List.filterMap (fun part => part.text) parts
      = (parts.filter (fun part => part.text.isSome)).map (fun part => part.text.getD "") := by
  induction parts with
  | nil => rfl
  | cons p ps ih =>
    cases h : p.text with
    | none => simp [List.filterMap_cons, List.filter_cons, h, ih]
    | some t => simp [List.filterMap_cons, List.filter_cons, h, ih]

/-- The page loop of input_pdf_setup, appending one dict per page, is a
map over the page list. -/
theorem foldl_append_singleton_eq_map {α β : Type} (f : α → β) (l : List α) (acc : List β) :
    l.foldl (fun parts x => parts ++ [f x]) acc = acc ++ l.map f := by
  induction l generalizing acc with
  | nil => simp
  | cons x xs ih => simp [List.foldl_cons, ih]

/-- The function String.join distributes over cons. -/
theorem string_join_cons (a : String) (l : List String) :
    String.join (a :: l) = a ++ String.join l := by
  apply String.ext
  simp [String.join_eq, String.data_append]

/-- Binding an ok value in the Except monad applies the continuation. -/
theorem except_ok_bind {ε α β : Type} (a : α) (f : α → Except ε β) :
    (Except.ok a >>= f) = f a := rfl

/-- One loop iteration always succeeds and appends the processed response
plus a blank line. -/
theorem extract_page_step_eq (generate_content : PdfPart → String → GeminiResponse)
    (acc : String) (part : PdfPart) :
    extract_page_step generate_content acc part
      = Except.ok (acc ++ process_str (generate_content part "Extract all the text from this image")
          ++ "\n\n") := by
  obtain ⟨s, hs⟩ :=
    process_gemini_response_ok (generate_content part "Extract all the text from this image")
  have hps : process_str (generate_content part "Extract all the text from this image") = s := by
    unfold process_str
    rw [hs]
  unfold extract_page_step
  dsimp only
  rw [hs, hps]
  rfl

/-- The extraction loop with an arbitrary accumulator appends, page by
page, the processed response plus a blank line. -/
theorem extracted_text_loop_go (generate_content : PdfPart → String → GeminiResponse)
    (pdf_parts : List PdfPart) (acc : String) :
    List.foldlM (extract_page_step generate_content) acc pdf_parts
      = Except.ok (acc ++ String.join (pdf_parts.map
          (fun part =>
            process_str (generate_content part "Extract all the text from this image")
              ++ "\n\n"))) := by
  induction pdf_parts generalizing acc with
  | nil =>
    rw [List.foldlM_nil, List.map_nil]
    rw [show String.join ([] : List String) = "" from rfl, String.append_empty]
    rfl
  | cons p ps ih =>
    rw [List.foldlM_cons, extract_page_step_eq]
    simp only [except_ok_bind]
    rw [ih, List.map_cons, string_join_cons]
    simp [String.append_assoc]

/-! ### Claim theorems -/

/-- Claim C3: for every model response, however the candidates, contents,
parts, text fields and prompt feedback are present or absent,
process_gemini_response never raises: it always returns a string on the ok
side of its Except channel, using the diagnostic messages as the error
channel. -/
theorem process_gemini_response_never_raises (response : GeminiResponse) :
    ∃ s, process_gemini_response response = Except.ok s :=
  process_gemini_response_ok response

/-- Claim C2: on a response with zero candidates whose prompt feedback
holds at least one safety rating of probability other than NEGLIGIBLE,
process_gemini_response returns the diagnostic naming the category and
probability of the first such rating in listed order. -/
theorem process_blocked_first_rating (response : GeminiResponse)
    (feedback : PromptFeedback) (rating : SafetyRating)
    (hcand : response.candidates = [])
    (hfb : response.prompt_feedback = some feedback)
    (hfind : feedback.safety_ratings.find? (fun rt => rt.probability != "NEGLIGIBLE")
      = some rating) :
    process_gemini_response response =
      Except.ok ("Content was blocked due to " ++ rating.category ++ " with "
        ++ rating.probability ++ " probability.") := by
  obtain ⟨cands, fb⟩ := response
  dsimp only at hcand hfb
  subst hcand
  subst hfb
  rw [process_gemini_response_nil_eq]
  dsimp only
  rw [← find_blocking_rating_eq_find] at hfind
  rw [hfind]

/-- Witness for claim C2 at a concrete blocked response. -/
theorem process_blocked_first_rating_witness :
    process_gemini_response ⟨[], some ⟨[⟨"X", "HIGH"⟩]⟩⟩
      = Except.ok "Content was blocked due to X with HIGH probability." := by
  have h := process_blocked_first_rating ⟨[], some ⟨[⟨"X", "HIGH"⟩]⟩⟩ ⟨[⟨"X", "HIGH"⟩]⟩
    ⟨"X", "HIGH"⟩ rfl rfl (by decide)
  exact h.trans rfl

/-- Counterexample to claim C1 as stated: a first candidate whose content
has an empty parts collection yields the no-text-parts diagnostic, not the
no-content diagnostic. -/
theorem process_empty_parts_counterexample :
    process_gemini_response ⟨[⟨some ⟨some []⟩⟩], none⟩
        = Except.ok "The response did not contain any text parts."
      ∧ "The response did not contain any text parts."
          ≠ "The response did not contain any content." :=
  ⟨rfl, by decide⟩

/-- Claim C1 (amended): with at least one candidate, the no-content
diagnostic is returned when the first candidate has absent content or an
absent parts field; an empty parts collection instead yields the
no-text-parts diagnostic. -/
theorem process_no_content_cases (response : GeminiResponse) (c : Candidate)
    (cs : List Candidate) (hcand : response.candidates = c :: cs) :
    ((c.content = none ∨ ∃ ct, c.content = some ct ∧ ct.parts = none) →
      process_gemini_response response
        = Except.ok "The response did not contain any content.")
    ∧ ∀ ct, c.content = some ct → ct.parts = some [] →
      process_gemini_response response
        = Except.ok "The response did not contain any text parts." := by
  obtain ⟨cands, fb⟩ := response
  dsimp only at hcand
  subst hcand
  constructor
  · intro h
    rcases h with hnone | ⟨ct, hct, hp⟩
    · rw [process_gemini_response_cons_eq, hnone]
    · rw [process_gemini_response_cons_eq, hct]
      dsimp only
      rw [hp]
  · intro ct hct hp
    rw [process_gemini_response_cons_eq, hct]
    dsimp only
    rw [hp]
    rfl

/-- Witness for claim C1 (amended) at a candidate with absent content. -/
theorem process_no_content_cases_witness :
    process_gemini_response ⟨[⟨none⟩], none⟩
      = Except.ok "The response did not contain any content." :=
  (process_no_content_cases ⟨[⟨none⟩], none⟩ ⟨none⟩ [] rfl).1 (Or.inl rfl)

/-- Claim C4: explain_and_summarize never propagates an exception. If the
model call raises with message m, the result is the error string built
from m; if it returns a response, the result is exactly what the
normalizer produces for it. -/
theorem explain_and_summarize_never_raises
    (generate_content : String → Except String GeminiResponse) (text : String) :
    (∀ m, generate_content (mk_prompt text) = Except.error m →
      explain_and_summarize generate_content text
        = "An error occurred while generating the explanation: " ++ m)
    ∧ ∀ r, generate_content (mk_prompt text) = Except.ok r →
      Except.ok (explain_and_summarize generate_content text)
        = process_gemini_response r := by
  constructor
  · intro m hm
    unfold explain_and_summarize
    rw [hm]
  · intro r hr
    unfold explain_and_summarize
    rw [hr]
    dsimp only
    obtain ⟨s, hs⟩ := process_gemini_response_ok r
    rw [hs]

/-- Witness for claim C4 with a model client stub that throws. -/
theorem explain_and_summarize_never_raises_witness :
    explain_and_summarize (fun _ => Except.error "boom") "text"
      = "An error occurred while generating the explanation: boom" := by
  have h :=
    (explain_and_summarize_never_raises (fun _ => Except.error "boom") "text").1 "boom" rfl
  exact h.trans rfl

/-- Counterexample to claim C5 as stated: an empty but present upload does
not raise FileNotFoundError; the bytes go to the rasterization library and
its failure is what surfaces. -/
theorem input_pdf_setup_empty_upload_counterexample :
    input_pdf_setup
        (fun _ : List Nat => (Except.error "poppler failed" : Except String (List Nat)))
        (fun n => [n]) (some [])
      = Except.error (PdfSetupError.libraryError "poppler failed")
    ∧ PdfSetupError.libraryError "poppler failed"
        ≠ PdfSetupError.fileNotFound "No file uploaded" :=
  ⟨rfl, by decide⟩

/-- Claim C5 (amended): input_pdf_setup fails with FileNotFoundError and
message No file uploaded exactly when the upload is absent; a present
upload, even of zero bytes, is handed to the rasterization library
instead. -/
theorem input_pdf_setup_file_not_found_iff {Image : Type}
    (convert_from_bytes : List Nat → Except String (List Image))
    (jpeg_bytes : Image → List Nat) (uploaded_file : Option (List Nat)) :
    input_pdf_setup convert_from_bytes jpeg_bytes uploaded_file
        = Except.error (PdfSetupError.fileNotFound "No file uploaded")
      ↔ uploaded_file = none := by
  cases uploaded_file with
  | none => simp [input_pdf_setup]
  | some bytes =>
    simp only [input_pdf_setup]
    cases convert_from_bytes bytes with
    | ok images => simp
    | error e => simp

/-- Claim C6: when the rasterization library yields a page list, the
returned sequence is its map, page by page in order, to a record with
mime_type image/jpeg and the base64 encoding of the JPEG bytes of that
page. -/
theorem input_pdf_setup_maps_pages {Image : Type}
    (convert_from_bytes : List Nat → Except String (List Image))
    (jpeg_bytes : Image → List Nat) (bytes : List Nat) (images : List Image)
    (hconv : convert_from_bytes bytes = Except.ok images) :
    input_pdf_setup convert_from_bytes jpeg_bytes (some bytes)
      = Except.ok (images.map
          (fun image => PdfPart.mk "image/jpeg" (b64encode (jpeg_bytes image)))) := by
  unfold input_pdf_setup
  dsimp only
  rw [hconv]
  dsimp only
  rw [foldl_append_singleton_eq_map]
  rw [List.nil_append]

/-- Witness for claim C6 with a two-page library stub. -/
theorem input_pdf_setup_maps_pages_witness :
    input_pdf_setup (fun _ : List Nat => (Except.ok [10, 20] : Except String (List Nat)))
        (fun n => [n]) (some [1])
      = Except.ok [PdfPart.mk "image/jpeg" "Cg==", PdfPart.mk "image/jpeg" "FA=="] := by
  have h := input_pdf_setup_maps_pages
    (fun _ : List Nat => (Except.ok [10, 20] : Except String (List Nat)))
    (fun n => [n]) [1] [10, 20] rfl
  exact h.trans rfl

/-- Claim C7: the extracted text of the pipeline is the concatenation, in
page order, of each page's normalized extraction result followed by a
blank-line separator, the separator included after the last page too. -/
theorem extracted_text_loop_concat (generate_content : PdfPart → String → GeminiResponse)
    (pdf_parts : List PdfPart) :
    extracted_text_loop generate_content pdf_parts
      = Except.ok (String.join (pdf_parts.map
          (fun part =>
            process_str (generate_content part "Extract all the text from this image")
              ++ "\n\n"))) := by
  unfold extracted_text_loop
  rw [extracted_text_loop_go]
  rw [String.empty_append]

/-- Claim C8: when the first candidate has content with at least one part
carrying a text field, the result is the texts of exactly those parts, in
part order, joined with a single space. -/
theorem process_joins_text_parts (response : GeminiResponse) (c : Candidate)
    (cs : List Candidate) (content : Content) (parts : List Part)
    (hcand : response.candidates = c :: cs)
    (hct : c.content = some content)
    (hp : content.parts = some parts)
    (hne : parts.filter (fun part => part.text.isSome) ≠ []) :
    process_gemini_response response =
      Except.ok (String.intercalate " "
        ((parts.filter (fun part => part.text.isSome)).map
          (fun part => part.text.getD ""))) := by
  obtain ⟨cands, fb⟩ := response
  dsimp only at hcand
  subst hcand
  rw [process_gemini_response_cons_eq, hct]
  dsimp only
  rw [hp]
  dsimp only
  rw [filterMap_text_eq_filter_map]
  obtain ⟨q, qs, hq⟩ := List.exists_cons_of_ne_nil hne
  rw [hq]
  rfl

/-- Witness for claim C8 with two text parts A and B. -/
theorem process_joins_text_parts_witness :
    process_gemini_response ⟨[⟨some ⟨some [⟨some "A"⟩, ⟨some "B"⟩]⟩⟩], none⟩
      = Except.ok "A B" := by
  have h := process_joins_text_parts ⟨[⟨some ⟨some [⟨some "A"⟩, ⟨some "B"⟩]⟩⟩], none⟩
    ⟨some ⟨some [⟨some "A"⟩, ⟨some "B"⟩]⟩⟩ [] ⟨some [⟨some "A"⟩, ⟨some "B"⟩]⟩
    [⟨some "A"⟩, ⟨some "B"⟩] rfl rfl rfl (by decide)
  exact h.trans rfl

/-- Claim C9: google_translate is a pure pass-through: it returns exactly
the string the backend method returns for the translator configured with
the given source and target languages and the given text. -/
theorem google_translate_passthrough
    (translate_method : GoogleTranslator → String → String)
    (text source_lang target_lang : String) :
    google_translate translate_method text source_lang target_lang
      = translate_method (GoogleTranslator.mk source_lang target_lang) text := rfl

/-- Claim C10: with at least one candidate, the result of
process_gemini_response depends only on the candidate list: two responses
with the same non-empty candidates normalize identically whatever their
prompt feedback and safety ratings. -/
theorem process_depends_only_on_candidates (r1 r2 : GeminiResponse)
    (heq : r1.candidates = r2.candidates) (hne : r1.candidates ≠ []) :
    process_gemini_response r1 = process_gemini_response r2 := by
  obtain ⟨cands1, fb1⟩ := r1
  obtain ⟨cands2, fb2⟩ := r2
  dsimp only at heq hne
  subst heq
  cases cands1 with
  | nil => exact absurd rfl hne
  | cons c cs =>
    rw [process_gemini_response_cons_eq, process_gemini_response_cons_eq]

/-- Witness for claim C10: all-HIGH safety ratings are ignored when a
candidate with text is present. -/
theorem process_depends_only_on_candidates_witness :
    process_gemini_response
        ⟨[⟨some ⟨some [⟨some "hello"⟩]⟩⟩], some ⟨[⟨"Y", "HIGH"⟩]⟩⟩
      = Except.ok "hello" := by
  have h := process_depends_only_on_candidates
    ⟨[⟨some ⟨some [⟨some "hello"⟩]⟩⟩], some ⟨[⟨"Y", "HIGH"⟩]⟩⟩
    ⟨[⟨some ⟨some [⟨some "hello"⟩]⟩⟩], none⟩ rfl (by decide)
  exact h.trans rfl

end App
